import Mathlib

/-!
Verification of the py-ws7 wavelength-meter server.

The development shallowly embeds the two source files:
* `wlm.py`   — class `WavelengthMeter` (hardware branch delegating to the
  vendor dll, and a debug branch simulating readings);
* `server.py` — the tornado handlers (`send_data`, `WsHandler.on_close`,
  `ApiHandler.get`).

Conventions of the embedding:
* Python floats are modelled as exact rationals; each call of
  `random.uniform(0, 0.0001)` is modelled by an explicit rational
  parameter `u` (one per call), constrained to `0 ≤ u ≤ 1/10000`
  in the theorems that need the bound.
* The vendor dll is opaque: its replies are parameters (`dllWl` for
  `GetWavelengthNum`, the fields of `PatternDll` for the pattern calls).
* Code that can raise returns `Except PyError`; a Python `for` loop whose
  body can raise is embedded by a recursion that stops at the first error.
-/

namespace WS7

/-- Python exception kinds raised by the code paths under study. -/
inductive PyError where
  | indexError
  | valueError
  | wsClosedError
deriving DecidableEq, Repr

/-- Python list indexing `l[i]`, including the negative-index convention:
`-len l ≤ i < 0` addresses from the end, anything else out of range
raises `IndexError` (modelled as `none`). -/
def pyGet (l : List ℚ) (i : ℤ) : Option ℚ :=
  if h : 0 ≤ i ∧ i < (l.length : ℤ) then
    some (l.get ⟨i.toNat, by omega⟩)
  else if h' : 0 ≤ i + (l.length : ℤ) ∧ i < 0 then
    some (l.get ⟨(i + (l.length : ℤ)).toNat, by omega⟩)
  else
    none

/-- The fixed base table of the simulated source
(`wavelengths = [460.8618, 689.2643, 679.2888, 707.2016, 460.8618*2, 0, 0, 0]`
in `WavelengthMeter.GetWavelength`, debug branch). -/
def simBase : List ℚ :=
  [4608618/10000, 6892643/10000, 6792888/10000, 7072016/10000,
   (4608618/10000) * 2, 0, 0, 0]

/-- Method `WavelengthMeter.GetWavelength(channel)`.
`debug = false`: returns `dll.GetWavelengthNum(channel, 0)`, modelled by the
opaque `dllWl`.  `debug = true`: returns `0` when `channel > 5`, otherwise
`wavelengths[channel - 1] + channel * random.uniform(0, 0.0001)` where the
drawn jitter is the parameter `u`. -/
def GetWavelength (debug : Bool) (dllWl : ℤ → ℚ) (u : ℚ) (channel : ℤ) :
    Except PyError ℚ :=
  if !debug then
    Except.ok (dllWl channel)
  else if channel > 5 then
    Except.ok 0
  else
    match pyGet simBase (channel - 1) with
    | some b => Except.ok (b + (channel : ℚ) * u)
    | none => Except.error PyError.indexError

/-- A Python list comprehension `[f i for i in l]` whose body may raise:
elements are evaluated left to right and the first exception aborts the
whole comprehension. -/
def listComp (f : ℕ → Except PyError ℚ) : List ℕ → Except PyError (List ℚ)
  | [] => Except.ok []
  | i :: rest =>
    match f i with
    | Except.error e => Except.error e
    | Except.ok v =>
      match listComp f rest with
      | Except.error e => Except.error e
      | Except.ok vs => Except.ok (v :: vs)

/-- The `wavelengths` property:
`[self.GetWavelength(i+1) for i in range(8)]`.  `u i` is the jitter drawn
by the `i`-th call (unused in the hardware branch). -/
def wavelengths (debug : Bool) (dllWl : ℤ → ℚ) (u : ℕ → ℚ) :
    Except PyError (List ℚ) :=
  listComp (fun i => GetWavelength debug dllWl (u i) ((i : ℤ) + 1)) (List.range 8)

/-- The `switcher_mode` property: `dll.GetSwitcherMode(0)` (a `c_long`,
modelled by the opaque `dllSw`) in the hardware branch, `0` in debug mode. -/
def switcher_mode (debug : Bool) (dllSw : ℤ) : ℤ :=
  if !debug then dllSw else 0

/-- The message of the structured error body returned for an out-of-range
channel in `ApiHandler.get`. -/
def wrongChannel : String :=
  String.mk ['W', 'r', 'o', 'n', 'g', ' ', 'c', 'h', 'a', 'n', 'n', 'e', 'l']

/-- The 8 fractional digit characters emitted by `"%.8f"` for a fractional
part `f < 10^8` (most significant digit first, zero padded). -/
def frac8 (f : ℕ) : List Char :=
  (List.range 8).map (fun k => Nat.digitChar (f / 10 ^ (7 - k) % 10))

/-- Python `"%.8f" % q`: round to the nearest multiple of `10 ^ (-8)` and
print sign, integer part, a dot and exactly 8 fractional digits. -/
def formatFixed8 (q : ℚ) : String :=
  String.mk ((if round (q * 100000000) < 0 then ['-'] else []) ++
    Nat.toDigits 10 ((round (q * 100000000)).natAbs / 100000000) ++
    '.' :: frac8 ((round (q * 100000000)).natAbs % 100000000))

/-- The three response shapes produced by `ApiHandler.get`. -/
inductive ApiResp where
  | jsonSnapshot (ws : List ℚ) (sw : ℤ)
  | text (body : String)
  | jsonError (status : ℕ) (msg : String)
deriving DecidableEq

/-- Handler `ApiHandler.get(channel)`: with no channel it writes the snapshot
object; with a channel it writes `"%.8f" % w[ch]` when `0 ≤ ch < len(w)`
and otherwise sets status 400 and writes the Wrong channel error object.
`w` and `sw` are the values read from the meter at the top of the handler. -/
def apiGet (w : List ℚ) (sw : ℤ) (channel : Option ℤ) : ApiResp :=
  match channel with
  | none => ApiResp.jsonSnapshot w sw
  | some ch =>
    if h : 0 ≤ ch ∧ ch < (w.length : ℤ) then
      ApiResp.text (formatFixed8 (w.get ⟨ch.toNat, by omega⟩))
    else
      ApiResp.jsonError 400 wrongChannel

/-- The instrument as seen by `server.py`: an opaque read interface plus a
poll counter instrumenting how many times `wlmeter.wavelengths` was read.
`read k` is the reading produced by the `k`-th poll. -/
structure Meter where
  pollCount : ℕ
  read : ℕ → List ℚ

/-- One access of the `wlmeter.wavelengths` property: bumps the poll
counter and yields that poll's reading. -/
def pollWavelengths (m : Meter) : Meter × List ℚ :=
  (⟨m.pollCount + 1, m.read⟩, m.read m.pollCount)

/-- Serialization `json.dumps(data)` for a list of numbers.  The exact decimal rendering
of a float is abstracted: each rational is serialized as `num/den`, which
is injective, so equal payloads correspond exactly to equal readings. -/
def jsonDumps (l : List ℚ) : String :=
  String.mk ('[' ::
    (List.intercalate [',', ' ']
      (l.map (fun q => (toString q.num).data ++ '/' :: (toString q.den).data)))
    ++ [']'])

/-- The `for c in clients: c.write_message(...)` loop of `send_data`.
`fails c = true` means `write_message` raises for subscriber `c`
(tornado's WebSocketClosedError).  The loop delivers in order and the
first raise aborts it; the result is the list of (subscriber, payload)
deliveries that happened plus the escaped exception, if any.  The loop
never mutates `clients`. -/
def broadcastLoop (fails : ℕ → Bool) (payload : String) :
    List ℕ → List (ℕ × String) × Option PyError
  | [] => ([], none)
  | c :: rest =>
    if fails c then
      ([], some PyError.wsClosedError)
    else
      let r := broadcastLoop fails payload rest
      ((c, payload) :: r.1, r.2)

/-- Function `send_data()` in `server.py`: if `len(clients) > 0`, read
`wlmeter.wavelengths` once and send `json.dumps(data)` to every client;
otherwise do nothing.  Returns the meter (with its poll count), the
deliveries and the exception escaping the loop, if any. -/
def send_data (m : Meter) (clients : List ℕ) (fails : ℕ → Bool) :
    Meter × List (ℕ × String) × Option PyError :=
  if clients.length > 0 then
    let p := pollWavelengths m
    (p.1, broadcastLoop fails (jsonDumps p.2) clients)
  else
    (m, [], none)

/-- Python `list.remove(x)`: removes the first occurrence of `x`, raises
`ValueError` when `x` is not in the list. -/
def pyRemove : List ℕ → ℕ → Except PyError (List ℕ)
  | [], _ => Except.error PyError.valueError
  | a :: rest, x =>
    if a = x then Except.ok rest
    else Except.map (fun t => a :: t) (pyRemove rest x)

/-- Handler `WsHandler.on_close`: `clients.remove(self)`. -/
def on_close (clients : List ℕ) (c : ℕ) : Except PyError (List ℕ) :=
  pyRemove clients c

/-- The ctypes element types `GetPatternData` can allocate its buffer
with, one per supported item size (2, 4 and 8 bytes). -/
inductive CType where
  | c_ushort
  | c_ulong
  | c_double
deriving DecidableEq, Repr

/-- The dll's replies to the pattern calls for the queried index:
`GetPatternItemCount`, `GetPatternItemSize`, and the behaviour of
`GetPatternDataNum` on a freshly allocated buffer — its result code and
the value it leaves in each buffer slot (which depends on the element
type the buffer was allocated with). -/
structure PatternDll where
  itemCount : ℤ
  itemSize : ℤ
  result : ℤ
  fill : CType → ℕ → ℚ

/-- Allocation `(ctype * item_count)()` followed by the
`GetPatternDataNum` call and `list(p_array)`.  A negative count makes the
ctypes array constructor raise `ValueError`. -/
def allocAndCall (dll : PatternDll) (t : CType) : Except PyError (ℤ × List ℚ) :=
  if dll.itemCount < 0 then
    Except.error PyError.valueError
  else
    Except.ok (dll.result, (List.range dll.itemCount.toNat).map (dll.fill t))

/-- Method `WavelengthMeter.GetPatternData`.  Hardware branch: query count and
size; empty result when either is `0`; dispatch the buffer element type on
the size, raising `ValueError` for any unsupported size; then allocate,
call and return `(result, list(p_array))`.  Debug branch:
`(0, [random.randint(0, 1000) for _ in range(10)])`, the draws being the
parameter `rand`. -/
def GetPatternData (debug : Bool) (dll : PatternDll) (rand : ℕ → ℤ) :
    Except PyError (ℤ × List ℚ) :=
  if !debug then
    if dll.itemCount = 0 ∨ dll.itemSize = 0 then
      Except.ok (0, [])
    else if dll.itemSize = 2 then
      allocAndCall dll CType.c_ushort
    else if dll.itemSize = 4 then
      allocAndCall dll CType.c_ulong
    else if dll.itemSize = 8 then
      allocAndCall dll CType.c_double
    else
      Except.error PyError.valueError
  else
    Except.ok (0, (List.range 10).map (fun k => ((rand k : ℤ) : ℚ)))

/-- A driver stub whose every reading is `0` (used to instantiate the
opaque hardware parameter in concrete checks). -/
def dllZero : ℤ → ℚ := fun _ => 0

/-- Zero jitter for every call. -/
def uZero : ℕ → ℚ := fun _ => 0

/-- Jitter of `1/20000` (half the documented bound) for every call. -/
def uHalf : ℕ → ℚ := fun _ => 1/20000

/-- A concrete meter for broadcast checks: never polled yet, every poll
reads the simulated base table. -/
def meterW : Meter := ⟨0, fun _ => simBase⟩

/-- A concrete dll reply set for pattern checks: 3 items of size 2,
result code 7, buffer slot `k` left holding `k`. -/
def dllPat : PatternDll := ⟨3, 2, 7, fun _ k => (k : ℚ)⟩

/-- The simulated reading when every jitter draw is `1/20000`. -/
def simWsHalf : List ℚ :=
  [4608618/10000 + 1 * (1/20000), 6892643/10000 + 2 * (1/20000),
   6792888/10000 + 3 * (1/20000), 7072016/10000 + 4 * (1/20000),
   (4608618/10000) * 2 + 5 * (1/20000), 0, 0, 0]

/-- A send predicate under which only subscriber `1` fails. -/
def failsOne : ℕ → Bool := fun c => c == 1

/-! ### Helper lemmas -/

/-- Negative in-range Python indexing addresses from the end. -/
theorem pyGet_neg (l : List ℚ) (i : ℤ) (hneg : i < 0) (hl : 0 ≤ i + (l.length : ℤ)) :
    pyGet l i = some (l.get ⟨(i + (l.length : ℤ)).toNat, by omega⟩) := by
  unfold pyGet
  rw [dif_neg (by omega), dif_pos ⟨hl, hneg⟩]

/-- In-range nonnegative Python indexing is plain list indexing. -/
theorem pyGet_nonneg (l : List ℚ) (i : ℤ) (h0 : 0 ≤ i) (hl : i < (l.length : ℤ)) :
    pyGet l i = some (l.get ⟨i.toNat, by omega⟩) := by
  unfold pyGet
  rw [dif_pos ⟨h0, hl⟩]

/-- A comprehension whose body never raises returns a list of the same
length whose `i`-th element is the body's value at the `i`-th input. -/
theorem listComp_ok (f : ℕ → Except PyError ℚ) :
    ∀ l : List ℕ, (∀ a ∈ l, ∃ b, f a = Except.ok b) →
    ∃ bs : List ℚ, listComp f l = Except.ok bs ∧ bs.length = l.length ∧
      ∀ (i : ℕ) (hi : i < l.length) (hb : i < bs.length),
        f (l.get ⟨i, hi⟩) = Except.ok (bs.get ⟨i, hb⟩) := by
  intro l
  induction l with
  | nil => exact fun _ => ⟨[], rfl, rfl, fun i hi => absurd hi (Nat.not_lt_zero i)⟩
  | cons a rest ih =>
    intro h
    obtain ⟨b, hb⟩ := h a (List.mem_cons_self a rest)
    obtain ⟨bs, h1, h2, h3⟩ := ih (fun x hx => h x (List.mem_cons_of_mem a hx))
    refine ⟨b :: bs, ?_, by simpa using h2, ?_⟩
    · unfold listComp
      rw [hb, h1]
    · intro i hi hbi
      match i with
      | 0 => simpa using hb
      | Nat.succ j => exact h3 j (by simpa using hi) (by simpa using hbi)

/-- Reading `GetWavelength` never raises on a 1-based channel `≥ 1`, in either
variant. -/
theorem getWavelength_isOk (debug : Bool) (dllWl : ℤ → ℚ) (u : ℚ) (c : ℤ)
    (hc : 1 ≤ c) : ∃ v, GetWavelength debug dllWl u c = Except.ok v := by
  cases debug with
  | false => exact ⟨dllWl c, rfl⟩
  | true =>
    by_cases h5 : c > 5
    · exact ⟨0, by simp [GetWavelength, h5]⟩
    · have hlen : ((simBase.length : ℤ) = 8) := by simp [simBase]
      cases hpg : pyGet simBase (c - 1) with
      | none =>
        rw [pyGet_nonneg simBase (c - 1) (by omega) (by omega)] at hpg
        exact absurd hpg (by simp)
      | some b => exact ⟨b + (c : ℚ) * u, by simp [GetWavelength, h5, hpg]⟩

/-- The `wavelengths` property always succeeds, returns exactly 8 values,
and its `i`-th value is the reading of 1-based channel `i + 1`. -/
theorem wavelengths_ok (debug : Bool) (dllWl : ℤ → ℚ) (u : ℕ → ℚ) :
    ∃ ws : List ℚ, wavelengths debug dllWl u = Except.ok ws ∧ ws.length = 8 ∧
      ∀ (i : ℕ) (hi : i < 8) (hb : i < ws.length),
        GetWavelength debug dllWl (u i) ((i : ℤ) + 1) = Except.ok (ws.get ⟨i, hb⟩) := by
  obtain ⟨bs, h1, h2, h3⟩ :=
    listComp_ok (fun i => GetWavelength debug dllWl (u i) ((i : ℤ) + 1))
      (List.range 8)
      (fun a _ => getWavelength_isOk debug dllWl (u a) ((a : ℤ) + 1) (by omega))
  refine ⟨bs, h1, by simpa using h2, fun i hi hb => ?_⟩
  have := h3 i (by simpa using hi) hb
  simpa using this

/-- The `wavelengths` value is determined by the hypothesis
`wavelengths … = Except.ok ws`: it has 8 entries, each the corresponding
channel reading. -/
theorem wavelengths_spec (debug : Bool) (dllWl : ℤ → ℚ) (u : ℕ → ℚ)
    (ws : List ℚ) (hws : wavelengths debug dllWl u = Except.ok ws) :
    ws.length = 8 ∧
      ∀ (i : ℕ) (hi : i < 8) (hb : i < ws.length),
        GetWavelength debug dllWl (u i) ((i : ℤ) + 1) = Except.ok (ws.get ⟨i, hb⟩) := by
  obtain ⟨ws', h1, h2, h3⟩ := wavelengths_ok debug dllWl u
  have : ws' = ws := by
    have := h1.symm.trans hws
    exact Except.ok.inj this
  subst this
  exact ⟨h2, h3⟩

/-- The simulated reading of channel `i + 1` for `i < 8`, in closed form:
jittered base value for the first five channels, `0` afterwards. -/
theorem getWavelength_sim (dllWl : ℤ → ℚ) (u : ℚ) (i : ℕ) (hi : i < 8) :
    GetWavelength true dllWl u ((i : ℤ) + 1) =
      Except.ok (if i < 5 then simBase.getD i 0 + ((i : ℚ) + 1) * u else 0) := by
  interval_cases i <;>
    norm_num [GetWavelength, pyGet, simBase, List.getD] <;> simp

/-- A broadcast loop in which no send fails delivers the payload to every
client, in order, and lets no exception escape. -/
theorem broadcastLoop_total (fails : ℕ → Bool) (payload : String)
    (hf : ∀ c, fails c = false) :
    ∀ l : List ℕ, broadcastLoop fails payload l = (l.map (fun c => (c, payload)), none) := by
  intro l
  induction l with
  | nil => rfl
  | cons a rest ih => simp [broadcastLoop, hf a, ih]

/-- A broadcast loop stops at the first failing client: the clients before
it each get the payload, the failing client and everyone after it get
nothing, and the exception escapes. -/
theorem broadcastLoop_stops (fails : ℕ → Bool) (payload : String)
    (c : ℕ) (hc : fails c = true) :
    ∀ (pre post : List ℕ), (∀ x ∈ pre, fails x = false) →
      broadcastLoop fails payload (pre ++ c :: post) =
        (pre.map (fun x => (x, payload)), some PyError.wsClosedError) := by
  intro pre
  induction pre with
  | nil => intro post _; simp [broadcastLoop, hc]
  | cons a rest ih =>
    intro post h
    have ha : fails a = false := h a (List.mem_cons_self a rest)
    have := ih post (fun x hx => h x (List.mem_cons_of_mem a hx))
    simp [broadcastLoop, ha, this]

/-- Python `list.remove` on a list not containing the element raises
`ValueError`. -/
theorem pyRemove_absent (c : ℕ) :
    ∀ l : List ℕ, c ∉ l → pyRemove l c = Except.error PyError.valueError := by
  intro l
  induction l with
  | nil => intro _; rfl
  | cons a rest ih =>
    intro h
    have hne : a ≠ c := fun e => h (e ▸ List.mem_cons_self a rest)
    have hc : c ∉ rest := fun hm => h (List.mem_cons_of_mem a hm)
    simp [pyRemove, hne, ih hc, Except.map]

/-- Python `list.remove` on a list containing the element removes its first
occurrence. -/
theorem pyRemove_present (c : ℕ) :
    ∀ (pre post : List ℕ), c ∉ pre →
      pyRemove (pre ++ c :: post) c = Except.ok (pre ++ post) := by
  intro pre
  induction pre with
  | nil => intro post _; simp [pyRemove]
  | cons a rest ih =>
    intro post h
    have hne : a ≠ c := fun e => h (e ▸ List.mem_cons_self a rest)
    have hc : c ∉ rest := fun hm => h (List.mem_cons_of_mem a hm)
    simp [pyRemove, hne, ih post hc, Except.map]

/-- Every digit character `Nat.digitChar d` for `d < 10` satisfies
`Char.isDigit`. -/
theorem digitChar_isDigit (d : ℕ) (hd : d < 10) :
    (Nat.digitChar d).isDigit = true := by
  interval_cases d <;> decide

/-- Formatting output of `"%.8f"` always splits at a dot whose right-hand side has
exactly 8 characters, all of them decimal digits. -/
theorem formatFixed8_shape (q : ℚ) :
    ∃ pre post : List Char, (formatFixed8 q).data = pre ++ '.' :: post ∧
      post.length = 8 ∧ post.all Char.isDigit = true := by
  refine ⟨(if round (q * 100000000) < 0 then ['-'] else []) ++
      Nat.toDigits 10 ((round (q * 100000000)).natAbs / 100000000),
    frac8 ((round (q * 100000000)).natAbs % 100000000), by
      simp [formatFixed8], by simp [frac8], ?_⟩
  rw [List.all_eq_true]
  intro x hx
  obtain ⟨k, _, hk⟩ := List.mem_map.mp hx
  rw [← hk]
  exact digitChar_isDigit _ (Nat.mod_lt _ (by norm_num))

/-- The zero-jitter simulated `wavelengths` reading is exactly the base
table. -/
theorem wavelengths_uZero : wavelengths true dllZero uZero = Except.ok simBase := by
  have h8 : List.range 8 = [0, 1, 2, 3, 4, 5, 6, 7] := rfl
  unfold wavelengths
  rw [h8]
  norm_num [listComp, GetWavelength, pyGet, simBase, uZero] <;> simp

/-! ### Claims -/

/-- C1: for every integer `ch` handed to the single-channel query, an
out-of-range `ch` (negative or `≥ 8`) yields the structured
`Wrong channel` error object with status 400 (a value of the handler, not
an exception — `apiGet` is total), and an in-range `ch` yields the
formatted wavelength string instead of an error. -/
theorem c1_channel_validation (debug : Bool) (dllWl : ℤ → ℚ) (u : ℕ → ℚ)
    (sw ch : ℤ) (ws : List ℚ)
    (hws : wavelengths debug dllWl u = Except.ok ws) :
    ((ch < 0 ∨ 8 ≤ ch) → apiGet ws sw (some ch) = ApiResp.jsonError 400 wrongChannel) ∧
    (0 ≤ ch → ch < 8 → ∃ hlt : ch.toNat < ws.length,
        apiGet ws sw (some ch) = ApiResp.text (formatFixed8 (ws.get ⟨ch.toNat, hlt⟩))) := by
  obtain ⟨hlen, -⟩ := wavelengths_spec debug dllWl u ws hws
  constructor
  · intro h
    simp only [apiGet]
    rw [dif_neg (by omega)]
  · intro h0 h8
    refine ⟨by omega, ?_⟩
    simp only [apiGet]
    rw [dif_pos ⟨h0, by omega⟩]

/-- Witness for C1 at `ch = 8` on the zero-jitter simulated reading. -/
theorem c1_witness :
    wavelengths true dllZero uZero = Except.ok simBase ∧
    (((8 : ℤ) < 0 ∨ 8 ≤ (8 : ℤ)) →
      apiGet simBase 0 (some 8) = ApiResp.jsonError 400 wrongChannel) ∧
    (0 ≤ (8 : ℤ) → (8 : ℤ) < 8 → ∃ hlt : (8 : ℤ).toNat < simBase.length,
        apiGet simBase 0 (some 8) =
          ApiResp.text (formatFixed8 (simBase.get ⟨(8 : ℤ).toNat, hlt⟩))) :=
  ⟨wavelengths_uZero,
    (c1_channel_validation true dllZero uZero 0 8 simBase wavelengths_uZero).1,
    (c1_channel_validation true dllZero uZero 0 8 simBase wavelengths_uZero).2⟩

/-- C2: for every channel index `i ∈ 0..7`, the simulated
`GetWavelength(i+1)` reading lies within the jitter bound
`[simBase[i], simBase[i] + (i+1) * 0.0001]`, and the channels the
simulation does not support (`i ≥ 5`) read zero. -/
theorem c2_simulated_jitter_bound (dllWl : ℤ → ℚ) (i : ℕ) (hi : i < 8) (u : ℚ)
    (h0 : 0 ≤ u) (h1 : u ≤ 1/10000) :
    ∃ v, GetWavelength true dllWl u ((i : ℤ) + 1) = Except.ok v ∧
      simBase.getD i 0 ≤ v ∧ v ≤ simBase.getD i 0 + ((i : ℚ) + 1) * (1/10000) ∧
      (5 ≤ i → v = 0) := by
  refine ⟨_, getWavelength_sim dllWl u i hi, ?_, ?_, ?_⟩ <;>
    interval_cases i <;> norm_num [simBase] <;> nlinarith

/-- Witness for C2 at channel index `2` with jitter `1/20000`. -/
theorem c2_witness :
    (2 : ℕ) < 8 ∧ (0 : ℚ) ≤ 1/20000 ∧ (1/20000 : ℚ) ≤ 1/10000 ∧
    ∃ v, GetWavelength true dllZero (1/20000) (((2 : ℕ) : ℤ) + 1) = Except.ok v ∧
      simBase.getD 2 0 ≤ v ∧ v ≤ simBase.getD 2 0 + (((2 : ℕ) : ℚ) + 1) * (1/10000) ∧
      (5 ≤ (2 : ℕ) → v = 0) :=
  ⟨by norm_num, by norm_num, by norm_num,
    c2_simulated_jitter_bound dllZero 2 (by norm_num) (1/20000) (by norm_num) (by norm_num)⟩

/-- C7: in both variants the whole-snapshot read succeeds, returns
exactly 8 wavelengths, and the no-channel query serves that list together
with the (integer-typed) switcher mode. -/
theorem c7_snapshot_shape (debug : Bool) (dllWl : ℤ → ℚ) (u : ℕ → ℚ) (sw : ℤ) :
    ∃ ws, wavelengths debug dllWl u = Except.ok ws ∧ ws.length = 8 ∧
      apiGet ws (switcher_mode debug sw) none =
        ApiResp.jsonSnapshot ws (switcher_mode debug sw) := by
  obtain ⟨ws, h1, h2, -⟩ := wavelengths_ok debug dllWl u
  exact ⟨ws, h1, h2, rfl⟩

/-- C10: the simulated `GetWavelength` does not validate the low end of
its 1-based channel argument: for `-7 ≤ c ≤ 0` it silently indexes the
base table from the end (channel `0` reading exactly `0`, channel `-1`
able to return a negative jittered value), and for `c ≤ -8` it raises
`IndexError` instead of returning a sentinel. -/
theorem c10_low_channels (dllWl : ℤ → ℚ) :
    (∀ c : ℤ, -7 ≤ c → c ≤ 0 → ∀ u : ℚ, ∃ b, pyGet simBase (c - 1) = some b ∧
        GetWavelength true dllWl u c = Except.ok (b + (c : ℚ) * u)) ∧
    (∀ u : ℚ, GetWavelength true dllWl u 0 = Except.ok 0) ∧
    (∃ u : ℚ, 0 ≤ u ∧ u ≤ 1/10000 ∧
        ∃ v, GetWavelength true dllWl u (-1) = Except.ok v ∧ v < 0) ∧
    (∀ c : ℤ, c ≤ -8 → ∀ u : ℚ,
        GetWavelength true dllWl u c = Except.error PyError.indexError) := by
  have hlen : ((simBase.length : ℤ) = 8) := by simp [simBase]
  refine ⟨?_, ?_, ?_, ?_⟩
  · intro c h7 h0 u
    have hp := pyGet_neg simBase (c - 1) (by omega) (by omega)
    exact ⟨_, hp, by simp [GetWavelength, show ¬c > 5 by omega, hp]⟩
  · intro u
    norm_num [GetWavelength, pyGet, simBase] <;> simp
  · refine ⟨1/20000, by norm_num, by norm_num, -1/20000, ?_, by norm_num⟩
    norm_num [GetWavelength, pyGet, simBase] <;> simp
  · intro c hc u
    have hp : pyGet simBase (c - 1) = none := by
      unfold pyGet
      rw [dif_neg (by rw [hlen]; omega), dif_neg (by rw [hlen]; omega)]
    simp [GetWavelength, show ¬c > 5 by omega, hp]

/-- Witness for C10 at `c = -3` with jitter `1/20000`, at `c = 0`,
and at `c = -9`. -/
theorem c10_witness :
    ((-7 : ℤ) ≤ -3 ∧ (-3 : ℤ) ≤ 0 ∧
      ∃ b, pyGet simBase ((-3) - 1) = some b ∧
        GetWavelength true dllZero (1/20000) (-3) = Except.ok (b + ((-3 : ℤ) : ℚ) * (1/20000))) ∧
    GetWavelength true dllZero (1/3) 0 = Except.ok 0 ∧
    ((-9 : ℤ) ≤ -8 ∧
      GetWavelength true dllZero (1/7) (-9) = Except.error PyError.indexError) :=
  ⟨⟨by norm_num, by norm_num,
      (c10_low_channels dllZero).1 (-3) (by norm_num) (by norm_num) (1/20000)⟩,
    (c10_low_channels dllZero).2.1 (1/3),
    ⟨by norm_num, (c10_low_channels dllZero).2.2.2 (-9) (by norm_num) (1/7)⟩⟩

/-- The half-bound-jitter simulated `wavelengths` reading, in closed
form. -/
theorem wavelengths_uHalf : wavelengths true dllZero uHalf = Except.ok simWsHalf := by
  have h8 : List.range 8 = [0, 1, 2, 3, 4, 5, 6, 7] := rfl
  unfold wavelengths
  rw [h8]
  norm_num [listComp, GetWavelength, pyGet, simBase, uHalf, simWsHalf] <;> simp <;>
    norm_num

/-- C8: for every in-range 0-based channel `ch`, the single-channel query
answers with `"%.8f"` applied to the reading of 1-based channel `ch + 1`;
that string splits at a dot followed by exactly 8 digit characters; and
at `ch = 2` the formatted value is the third base-table constant up to
the jitter bound. -/
theorem c8_formatted_channel (dllWl : ℤ → ℚ) (u : ℕ → ℚ)
    (hu : ∀ i, 0 ≤ u i ∧ u i ≤ 1/10000) (sw : ℤ) (ch : ℕ) (hch : ch < 8)
    (ws : List ℚ) (hws : wavelengths true dllWl u = Except.ok ws) :
    ∃ v, GetWavelength true dllWl (u ch) ((ch : ℤ) + 1) = Except.ok v ∧
      apiGet ws sw (some (ch : ℤ)) = ApiResp.text (formatFixed8 v) ∧
      (∃ pre post : List Char, (formatFixed8 v).data = pre ++ '.' :: post ∧
        post.length = 8 ∧ post.all Char.isDigit = true) ∧
      (ch = 2 → 6792888/10000 ≤ v ∧ v ≤ 6792888/10000 + 3 * (1/10000)) := by
  obtain ⟨hlen, hget⟩ := wavelengths_spec true dllWl u ws hws
  have hb : ch < ws.length := by omega
  refine ⟨ws.get ⟨ch, hb⟩, hget ch hch hb, ?_, formatFixed8_shape _, ?_⟩
  · simp only [apiGet]
    rw [dif_pos ⟨by omega, by omega⟩]
    have hn : ((ch : ℤ)).toNat = ch := Int.toNat_natCast ch
    congr 1
  · intro h2
    subst h2
    have hval : ws.get ⟨2, hb⟩ = 6792888/10000 + 3 * u 2 := by
      have h := (hget 2 (by norm_num) hb).symm.trans
        (getWavelength_sim dllWl (u 2) 2 (by norm_num))
      have h' := Except.ok.inj h
      rw [h']
      norm_num [simBase, List.getD]
    obtain ⟨hu0, hu1⟩ := hu 2
    rw [hval]
    constructor <;> nlinarith

/-- Witness for C8 at channel `2` with every jitter draw `1/20000`. -/
theorem c8_witness :
    (0 ≤ uHalf 2 ∧ uHalf 2 ≤ 1/10000) ∧ (2 : ℕ) < 8 ∧
    wavelengths true dllZero uHalf = Except.ok simWsHalf ∧
    ∃ v, GetWavelength true dllZero (uHalf 2) (((2 : ℕ) : ℤ) + 1) = Except.ok v ∧
      apiGet simWsHalf 0 (some ((2 : ℕ) : ℤ)) = ApiResp.text (formatFixed8 v) ∧
      (∃ pre post : List Char, (formatFixed8 v).data = pre ++ '.' :: post ∧
        post.length = 8 ∧ post.all Char.isDigit = true) ∧
      ((2 : ℕ) = 2 → 6792888/10000 ≤ v ∧ v ≤ 6792888/10000 + 3 * (1/10000)) :=
  ⟨⟨by norm_num [uHalf], by norm_num [uHalf]⟩, by norm_num, wavelengths_uHalf,
    c8_formatted_channel dllZero uHalf
      (fun i => ⟨by norm_num [uHalf], by norm_num [uHalf]⟩) 0 2 (by norm_num)
      simWsHalf wavelengths_uHalf⟩

/-- C3: a tick with at least one registered subscriber polls the
instrument exactly once and delivers to each subscriber, in registration
order, the same serialized 8-element reading produced by that single
poll. -/
theorem c3_single_poll_fanout (m : Meter) (clients : List ℕ)
    (hne : clients.length > 0) (fails : ℕ → Bool) (hf : ∀ c, fails c = false)
    (h8 : ∀ k, (m.read k).length = 8) :
    (send_data m clients fails).1.pollCount = m.pollCount + 1 ∧
    (send_data m clients fails).2.1.map Prod.fst = clients ∧
    (send_data m clients fails).2.1.length = clients.length ∧
    (∀ p ∈ (send_data m clients fails).2.1, p.2 = jsonDumps (m.read m.pollCount)) ∧
    (m.read m.pollCount).length = 8 ∧
    (send_data m clients fails).2.2 = none := by
  have hsd : send_data m clients fails =
      (⟨m.pollCount + 1, m.read⟩,
        broadcastLoop fails (jsonDumps (m.read m.pollCount)) clients) := by
    simp [send_data, hne, pollWavelengths]
  rw [hsd, broadcastLoop_total fails _ hf clients]
  refine ⟨rfl, ?_, by simp, ?_, h8 _, rfl⟩
  · simp [Function.comp_def]
  · intro p hp
    rw [List.mem_map] at hp
    obtain ⟨c, -, rfl⟩ := hp
    rfl

/-- Witness for C3: three subscribers, no failing send, base-table
readings. -/
theorem c3_witness :
    ([1, 2, 3] : List ℕ).length > 0 ∧
    ((send_data meterW [1, 2, 3] (fun _ => false)).1.pollCount = meterW.pollCount + 1 ∧
      (send_data meterW [1, 2, 3] (fun _ => false)).2.1.map Prod.fst = [1, 2, 3] ∧
      (send_data meterW [1, 2, 3] (fun _ => false)).2.1.length = ([1, 2, 3] : List ℕ).length ∧
      (∀ p ∈ (send_data meterW [1, 2, 3] (fun _ => false)).2.1,
          p.2 = jsonDumps (meterW.read meterW.pollCount)) ∧
      (meterW.read meterW.pollCount).length = 8 ∧
      (send_data meterW [1, 2, 3] (fun _ => false)).2.2 = none) :=
  ⟨by norm_num,
    c3_single_poll_fanout meterW [1, 2, 3] (by norm_num) (fun _ => false)
      (fun _ => rfl) (fun _ => rfl)⟩

/-- C4: a tick with zero registered subscribers is a no-op: the meter is
returned untouched (in particular its poll count is unchanged, so the
instrument is not read) and nothing is delivered. -/
theorem c4_empty_tick_no_poll (m : Meter) (fails : ℕ → Bool) :
    send_data m [] fails = (m, [], none) ∧
    (send_data m [] fails).1.pollCount = m.pollCount := by
  constructor <;> simp [send_data]

/-- C5 counterexample: `on_close` (`clients.remove(self)`) raises
`ValueError` for a subscriber that was never added — and likewise for one
no longer present — instead of being a no-op as the claim states. -/
theorem c5_counterexample :
    on_close [] 0 = Except.error PyError.valueError ∧
    on_close [7] 3 = Except.error PyError.valueError := by
  constructor <;> rfl

/-- C5 amended: removing a currently registered subscriber removes its
first occurrence, but removing a subscriber that was never added or was
already removed raises `ValueError` — it is not a safe no-op. -/
theorem c5_amended_remove (clients : List ℕ) (c : ℕ) :
    (c ∉ clients → on_close clients c = Except.error PyError.valueError) ∧
    (∀ pre post : List ℕ, clients = pre ++ c :: post → c ∉ pre →
        on_close clients c = Except.ok (pre ++ post)) :=
  ⟨fun h => pyRemove_absent c clients h,
    fun pre post he hn => by subst he; exact pyRemove_present c pre post hn⟩

/-- Witness for the amended C5: removing the absent `7` from `[5]`
raises; removing the present `7` from `[5, 7, 9]` drops it. -/
theorem c5_amended_witness :
    (7 ∉ ([5] : List ℕ) ∧ on_close [5] 7 = Except.error PyError.valueError) ∧
    (([5, 7, 9] : List ℕ) = [5] ++ 7 :: [9] ∧ 7 ∉ ([5] : List ℕ) ∧
      on_close [5, 7, 9] 7 = Except.ok ([5] ++ [9])) :=
  ⟨⟨by decide, (c5_amended_remove [5] 7).1 (by decide)⟩,
    ⟨rfl, by decide, (c5_amended_remove [5, 7, 9] 7).2 [5] [9] rfl (by decide)⟩⟩

/-- C6 counterexample: with subscribers `[1, 2]` where only subscriber
`1`'s send fails, subscriber `2` — whose send would succeed — receives
nothing (the delivery list is empty) and the send error escapes the
broadcast, contradicting the claim that a failure does not abort delivery
to the remaining subscribers.  (No removal happens either: `send_data`
never touches the registry.) -/
theorem c6_counterexample :
    failsOne 2 = false ∧
    (send_data meterW [1, 2] failsOne).2.1 = [] ∧
    (send_data meterW [1, 2] failsOne).2.2 = some PyError.wsClosedError := by
  refine ⟨rfl, rfl, rfl⟩

/-- C6 amended: a send failure aborts the broadcast loop at the failing
subscriber — those registered before it receive the payload, the failing
one and everyone after it receive nothing, the exception escapes
`send_data`, and no subscriber is removed (the function never modifies
the registry). -/
theorem c6_amended_broadcast (m : Meter) (fails : ℕ → Bool) (pre post : List ℕ)
    (c : ℕ) (hpre : ∀ x ∈ pre, fails x = false) (hc : fails c = true) :
    (send_data m (pre ++ c :: post) fails).2.1 =
      pre.map (fun x => (x, jsonDumps (m.read m.pollCount))) ∧
    (send_data m (pre ++ c :: post) fails).2.2 = some PyError.wsClosedError := by
  have hne : (pre ++ c :: post).length > 0 := by simp
  have hsd : send_data m (pre ++ c :: post) fails =
      (⟨m.pollCount + 1, m.read⟩,
        broadcastLoop fails (jsonDumps (m.read m.pollCount)) (pre ++ c :: post)) := by
    simp [send_data, hne, pollWavelengths]
  rw [hsd, broadcastLoop_stops fails _ c hc pre post hpre]
  exact ⟨rfl, rfl⟩

/-- Witness for the amended C6: subscribers `[4, 1, 2]` with subscriber
`1` failing — `4` is served, `2` is not, the exception escapes. -/
theorem c6_amended_witness :
    (∀ x ∈ ([4] : List ℕ), failsOne x = false) ∧ failsOne 1 = true ∧
    ((send_data meterW ([4] ++ 1 :: [2]) failsOne).2.1 =
        [4].map (fun x => (x, jsonDumps (meterW.read meterW.pollCount))) ∧
      (send_data meterW ([4] ++ 1 :: [2]) failsOne).2.2 = some PyError.wsClosedError) :=
  ⟨by decide, rfl, c6_amended_broadcast meterW failsOne [4] [2] 1 (by decide) rfl⟩

/-- C9: the hardware pattern read returns `(0, [])` when the driver
reports no items or zero item size; for item sizes 2, 4 and 8 it
allocates a buffer of the matching ctypes element width and returns the
driver's result code with the buffer contents; any other size raises
(`ValueError`), not a recoverable result.  The simulated variant always
returns code `0` with the 10 pseudo-random draws. -/
theorem c9_pattern_data (dll : PatternDll) (rand : ℕ → ℤ) :
    ((dll.itemCount = 0 ∨ dll.itemSize = 0) →
        GetPatternData false dll rand = Except.ok (0, [])) ∧
    (¬(dll.itemCount = 0 ∨ dll.itemSize = 0) → 0 ≤ dll.itemCount →
      (dll.itemSize = 2 → GetPatternData false dll rand =
          Except.ok (dll.result,
            (List.range dll.itemCount.toNat).map (dll.fill CType.c_ushort))) ∧
      (dll.itemSize = 4 → GetPatternData false dll rand =
          Except.ok (dll.result,
            (List.range dll.itemCount.toNat).map (dll.fill CType.c_ulong))) ∧
      (dll.itemSize = 8 → GetPatternData false dll rand =
          Except.ok (dll.result,
            (List.range dll.itemCount.toNat).map (dll.fill CType.c_double))) ∧
      (dll.itemSize ≠ 2 → dll.itemSize ≠ 4 → dll.itemSize ≠ 8 →
          GetPatternData false dll rand = Except.error PyError.valueError)) ∧
    (GetPatternData true dll rand =
        Except.ok (0, (List.range 10).map (fun k => ((rand k : ℤ) : ℚ))) ∧
      ((List.range 10).map (fun k => ((rand k : ℤ) : ℚ))).length = 10) := by
  refine ⟨?_, ?_, rfl, by simp⟩
  · intro h
    simp [GetPatternData, h]
  · intro h hnn
    have hneg : ¬dll.itemCount < 0 := by omega
    have hA : ¬dll.itemCount = 0 := fun ha => h (Or.inl ha)
    have hB : ¬dll.itemSize = 0 := fun hb => h (Or.inr hb)
    refine ⟨?_, ?_, ?_, ?_⟩
    · intro h2
      simp [GetPatternData, hA, hB, h2, allocAndCall, hneg]
    · intro h4
      have h2 : dll.itemSize ≠ 2 := by omega
      simp [GetPatternData, hA, hB, h2, h4, allocAndCall, hneg]
    · intro h8
      have h2 : dll.itemSize ≠ 2 := by omega
      have h4 : dll.itemSize ≠ 4 := by omega
      simp [GetPatternData, hA, hB, h2, h4, h8, allocAndCall, hneg]
    · intro h2 h4 h8
      simp [GetPatternData, hA, hB, h2, h4, h8]

/-- Witness for C9: 3 items of size 2 (hardware path) and the debug
path, on the concrete `dllPat`. -/
theorem c9_witness :
    ¬(dllPat.itemCount = 0 ∨ dllPat.itemSize = 0) ∧ 0 ≤ dllPat.itemCount ∧
    dllPat.itemSize = 2 ∧
    GetPatternData false dllPat (fun _ => 5) =
      Except.ok (dllPat.result,
        (List.range dllPat.itemCount.toNat).map (dllPat.fill CType.c_ushort)) ∧
    GetPatternData true dllPat (fun _ => 5) =
      Except.ok (0, (List.range 10).map (fun _ => ((5 : ℤ) : ℚ))) :=
  ⟨by decide, by decide, rfl,
    ((c9_pattern_data dllPat (fun _ => 5)).2.1 (by decide) (by decide)).1 rfl,
    by exact (c9_pattern_data dllPat (fun _ => 5)).2.2.1⟩

end WS7
